import Mathlib

/-!
# Verification of the connection-level protocol engine (`src/cmap/connection.ts`)

This file shallowly embeds the observable behaviour of the connection engine:

* the `Connection` class's pending-operation map (`kQueue`), its message
  dispatch (`onMessage`), its teardown (`cleanup` / `destroy`), and the
  module-level `write` helper including the command-monitoring wrapper;
* the cluster-time gossip logic shared by `Connection.command` and
  `ModernConnection.prepareCommand`;
* the byte framer `readWireProtocolMessages` used by `ModernConnection`;
* the reply-delivery behaviour of `ModernConnection.sendCommand` /
  `exhaustCommand` over a finite stream of parsed replies.

Callbacks are opaque in the source, so handler invocations are recorded as
events in a trace (`Ev`); the monitoring wrapper installed by `write` is
modelled by tagging each operation description with `monitored` and playing
the wrapper's logic at invocation time (`invokeCb`), exactly as the wrapper
closure would.
-/

/-- Error kinds distinguished by the engine (classes from `../error` plus the
`MongoRuntimeError` raised with `INVALID_QUEUE_SIZE`). -/
inductive ErrKind where
  | network
  | networkTimeout
  | parse
  | server
  | writeConcern
  | invalidQueueSize
  | compatibility
  | unexpectedServerResponse
deriving DecidableEq, Repr

/-- The fields of a reply's first document that the engine inspects
(`document.ok`, `document.$err`, `document.errmsg`, `document.code`,
`document.writeConcernError`, `document.$clusterTime`).  Boolean fields model
JS truthiness of the corresponding field. -/
structure Doc where
  ok : Option Int := none
  errDollar : Bool := false
  errmsg : Bool := false
  code : Bool := false
  writeConcernError : Bool := false
  clusterTime : Option Nat := none
deriving DecidableEq, Repr

/-- The parts of an `OperationDescription` the dispatch logic reads:
its request id, the `noResponse` flag, and whether `write` wrapped its
callback with the command-monitoring wrapper (`conn.monitorCommands`). -/
structure OperationDescription where
  requestId : Nat
  noResponse : Bool
  monitored : Bool
deriving DecidableEq, Repr

/-- Observable events of one connection: emitter events plus invocations of a
pending operation's completion handler (`cbCall rid err reply` records the
caller-supplied callback of the operation with request id `rid` being invoked
with `(err, reply)`). -/
inductive Ev where
  | message
  | commandStarted
  | commandSucceeded
  | commandFailed
  | clusterTimeReceived (t : Nat)
  | close
  | cbCall (requestId : Nat) (err : Option ErrKind) (reply : Option Doc)
deriving DecidableEq, Repr

/-- The mutable state of a `Connection` that the modelled operations touch:
`closed`, the insertion-ordered pending map `kQueue`, `kClusterTime`, the
monitoring flags, the delayed-timeout latch `kDelayedTimeoutId`, the stream's
socket timeout, the generation counter `kGeneration`, and the connection's
default `socketTimeoutMS`. -/
structure ConnState where
  closed : Bool
  queue : List (Nat × OperationDescription)
  clusterTime : Option Nat
  isMonitoringConnection : Bool
  monitorCommands : Bool
  delayedTimeout : Bool
  socketTimeout : Nat
  generation : Int
  socketTimeoutMSDefault : Nat
deriving DecidableEq, Repr

/-- Models `Map.get` on the insertion-ordered pending map. -/
def qLookup : List (Nat × OperationDescription) → Nat → Option OperationDescription
  | [], _ => none
  | (k, v) :: rest, key => if k = key then some v else qLookup rest key

/-- Models `Map.delete` on the insertion-ordered pending map (keys are unique in a
JS `Map`, so removing every matching key agrees with removing the one entry). -/
def qDelete : List (Nat × OperationDescription) → Nat → List (Nat × OperationDescription)
  | [], _ => []
  | (k, v) :: rest, key => if k = key then qDelete rest key else (k, v) :: qDelete rest key

/-- Models `Map.set`: replace in place if the key exists, else append. -/
def qSet : List (Nat × OperationDescription) → Nat → OperationDescription →
    List (Nat × OperationDescription)
  | [], k, v => [(k, v)]
  | (k', v') :: rest, k, v => if k' = k then (k, v) :: rest else (k', v') :: qSet rest k v

/-- The condition `reply?.ok !== 1` is false exactly when a reply is present with `ok: 1`. -/
def replyOkOne : Option Doc → Bool
  | some d => d.ok = some 1
  | none => false

/-- The command-monitoring wrapper's event choice (`write`, lines 723-744):
`if (err && reply?.ok !== 1)` emit failed; `else if (reply && (reply.ok === 0
|| reply.$err))` emit failed; else emit succeeded. -/
def monitorEvent (err : Option ErrKind) (reply : Option Doc) : Ev :=
  if err.isSome && !replyOkOne reply then Ev.commandFailed
  else
    match reply with
    | some d => if d.ok = some 0 || d.errDollar then Ev.commandFailed else Ev.commandSucceeded
    | none => Ev.commandSucceeded

/-- Models `err instanceof MongoWriteConcernError`. -/
def isWCE : Option ErrKind → Bool
  | some .writeConcern => true
  | _ => false

/-- Invoking a pending operation's callback.  When the operation was dispatched
with command monitoring enabled, its `cb` is the wrapper from `write`
(lines 723-753): it emits exactly one of commandFailed/commandSucceeded and
then calls the original callback, suppressing the reply document when the
error is a write-concern error. -/
def invokeCb (op : OperationDescription) (err : Option ErrKind) (reply : Option Doc) : List Ev :=
  if op.monitored then
    [monitorEvent err reply, Ev.cbCall op.requestId err (if isWCE err then none else reply)]
  else
    [Ev.cbCall op.requestId err reply]

/-- Model of `Connection.cleanup` (lines 448-484).  If the connection is already closed
it does nothing.  Otherwise it latches `closed`, and `completeCleanup` invokes
every pending operation's callback with the closing error, clears the map, and
emits `close` — in that order on every path (`force`, graceful `end`, and
`writableEnded`; the socket-level differences between those paths are not
observable in this model, and the graceful path's `end` callback is modelled
as eventually invoked). -/
def cleanup (s : ConnState) (_force : Bool) (error : Option ErrKind) : ConnState × List Ev :=
  if s.closed then (s, [])
  else
    let s := { s with closed := true }
    (({ s with queue := [] } : ConnState),
      (s.queue.map fun p => invokeCb p.2 error none).flatten ++ [Ev.close])

/-- Model of `Connection.destroy` (lines 422-438): a no-op (plus a deferred callback to
the destroy caller, not traced here) when already closed, otherwise `cleanup`
with a `MongoNetworkError` naming the connection. -/
def destroy (s : ConnState) (force : Bool) : ConnState × List Ev :=
  if s.closed then (s, []) else cleanup s force (some .network)

/-- The stream `close` handler (lines 319-322): `cleanup(true, MongoNetworkError)`. -/
def onClose (s : ConnState) : ConnState × List Ev :=
  cleanup s true (some .network)

/-- An inbound reply as seen by `onMessage`: the envelope ids and
`moreToCome` flag, whether `message.parse` succeeds, and the resulting
`documents[0]` (if any). -/
structure WireMessage where
  responseTo : Nat
  requestId : Nat
  moreToCome : Bool
  parseOk : Bool
  doc : Option Doc
deriving DecidableEq, Repr

/-- The tail of `Connection.onMessage` once an operation description has been
found (lines 370-420): delete the entry under `message.responseTo`, re-insert
under `message.requestId` and re-arm the socket timeout when `moreToCome`,
parse (a parse failure goes to the callback), then dispatch on the first
document: record/emit `$clusterTime`, deliver a write-concern error (with the
document), a server error (`ok === 0 || $err || errmsg || code`), or success. -/
def deliver (s : ConnState) (savedTimeout : Nat) (msg : WireMessage)
    (op : OperationDescription) : ConnState × List Ev :=
  let s := { s with queue := qDelete s.queue msg.responseTo }
  let s := if msg.moreToCome then
      { s with queue := qSet s.queue msg.requestId op, socketTimeout := savedTimeout }
    else s
  if msg.parseOk then
    match msg.doc with
    | some document =>
      let s := if document.clusterTime.isSome then
          { s with clusterTime := document.clusterTime } else s
      let ctEvs := match document.clusterTime with
        | some t => [Ev.clusterTimeReceived t]
        | none => []
      if document.writeConcernError then
        (s, ctEvs ++ invokeCb op (some .writeConcern) (some document))
      else if document.ok = some 0 || document.errDollar || document.errmsg || document.code then
        (s, ctEvs ++ invokeCb op (some .server) none)
      else
        (s, ctEvs ++ invokeCb op none (some document))
    | none => (s, invokeCb op none none)
  else (s, invokeCb op (some .parse) none)

/-- Model of `Connection.onMessage` (lines 332-420).  Clears the delayed timeout, saves
and zeroes the socket timeout, emits `message`, looks the reply up by
`responseTo`, and on a monitoring connection applies the orphan-recovery rule:
a map of size `> 1` is torn down with the `INVALID_QUEUE_SIZE` runtime error;
otherwise the single (first) entry, if any, is adopted and removed under its
own key.  With no description found the reply is dropped. -/
def onMessage (s0 : ConnState) (msg : WireMessage) : ConnState × List Ev :=
  let savedTimeout := s0.socketTimeout
  let s := { s0 with delayedTimeout := false, socketTimeout := 0 }
  match qLookup s.queue msg.responseTo with
  | some op =>
    let r := deliver s savedTimeout msg op
    (r.1, Ev.message :: r.2)
  | none =>
    if s.isMonitoringConnection then
      if 1 < s.queue.length then
        let r := cleanup s true (some .invalidQueueSize)
        (r.1, Ev.message :: r.2)
      else
        match s.queue with
        | [] => (s, [Ev.message])
        | (rid, orphan) :: _ =>
          let s1 := { s with queue := qDelete s.queue rid }
          let r := deliver s1 savedTimeout msg orphan
          (r.1, Ev.message :: r.2)
    else (s, [Ev.message])

/-- The module-level `write` helper (lines 678-773).  Builds the operation
description (wrapping its callback when `conn.monitorCommands`), sets the
socket timeout, inserts into the pending map unless `noResponse`, performs
`messageStream.writeCommand` (whose thrown error, if any, is the `writeError`
argument), removes the entry and delivers the error if the write throws for a
response-expecting operation, and finally fires the callback with no arguments
when `noResponse` — note the source reaches that final call even when the
write threw, because the `catch` only returns for response-expecting
operations. -/
def write (s : ConnState) (requestId : Nat) (noResponse : Bool)
    (optSocketTimeoutMS : Option Nat) (writeError : Option ErrKind) : ConnState × List Ev :=
  let op : OperationDescription :=
    { requestId := requestId, noResponse := noResponse, monitored := s.monitorCommands }
  let s := match optSocketTimeoutMS with
    | some t => { s with socketTimeout := t }
    | none =>
      if s.socketTimeoutMSDefault ≠ 0 then
        { s with socketTimeout := s.socketTimeoutMSDefault } else s
  let startEvs := if s.monitorCommands then [Ev.commandStarted] else []
  let s := if noResponse then s else { s with queue := qSet s.queue requestId op }
  match writeError with
  | some e =>
    if noResponse then
      (s, startEvs ++ invokeCb op none none)
    else
      (({ s with queue := qDelete s.queue requestId } : ConnState),
        startEvs ++ invokeCb op (some e) none)
  | none =>
    if noResponse then (s, startEvs ++ invokeCb op none none)
    else (s, startEvs)

/-- Model of `get generation` (lines 291-293): `this[kGeneration] || 0`. -/
def generationGet (s : ConnState) : Int :=
  if s.generation = 0 then 0 else s.generation

/-- Model of `set generation` (lines 295-297). -/
def generationSet (s : ConnState) (g : Int) : ConnState :=
  { s with generation := g }

/-! ## Cluster-time gossip (`Connection.command` 498-527 / `ModernConnection.prepareCommand` 973-1000) -/

/-- The parts of a `ClientSession` the gossip logic reads. -/
structure Session where
  clusterTime : Option Nat
  explicit : Bool
deriving DecidableEq, Repr

/-- The cluster-time/session logic that `Connection.command` (lines 498-527)
and `ModernConnection.prepareCommand` (lines 973-1000) implement with
identical code: start from the connection's cluster time; when the connection
supports sessions and a session is supplied, upgrade to the session's cluster
time only when both are known and the session's is strictly greater
(`session.clusterTime && clusterTime && session.clusterTime.clusterTime
.greaterThan(clusterTime.clusterTime)`); an explicitly requested session
without session support is a compatibility error returned before anything is
attached.  The result is the `$clusterTime` value stamped onto the outgoing
command (`if (clusterTime) cmd.$clusterTime = clusterTime`), `none` meaning no
field is attached.  Cluster times are modelled as naturals ordered like
BSON timestamps; `applySession`'s own failure modes are out of scope. -/
def commandClusterTime (connClusterTime : Option Nat) (hasSessionSupport : Bool)
    (session : Option Session) : Except ErrKind (Option Nat) :=
  let clusterTime := connClusterTime
  if hasSessionSupport && session.isSome then
    let clusterTime :=
      match session, clusterTime with
      | some ss, some ct =>
        match ss.clusterTime with
        | some sct => if ct < sct then some sct else some ct
        | none => some ct
      | _, _ => clusterTime
    .ok clusterTime
  else if (session.map Session.explicit).getD false then
    .error .compatibility
  else
    .ok clusterTime

/-- What section 4.4 step 4 of the specification prescribes, in its own words:
the greater of the connection's and the session's known cluster time, attached
whenever at least one of the two is known.  Stated for comparison with
`commandClusterTime`, which is translated from the source. -/
def specGossipClusterTime (connClusterTime sessionClusterTime : Option Nat) : Option Nat :=
  match connClusterTime, sessionClusterTime with
  | some c, some s => some (max c s)
  | some c, none => some c
  | none, some s => some s
  | none, none => none

/-! ## The byte framer (`readWireProtocolMessages`, lines 1199-1234) -/

/-- Source constant `kDefaultMaxBsonMessageSize = 1024 * 1024 * 16 * 4` (line 1186). -/
def kDefaultMaxBsonMessageSize : Nat := 1024 * 1024 * 16 * 4

/-- Models `connection.hello?.maxBsonMessageSize ?? kDefaultMaxBsonMessageSize`
(line 1204). -/
def resolveMaxMessageSize (helloMaxBsonMessageSize : Option Nat) : Nat :=
  helloMaxBsonMessageSize.getD kDefaultMaxBsonMessageSize

/-- Model of `BufferPool.getInt32`: read the first four buffered bytes as a signed
little-endian 32-bit integer, or `none` when fewer than four bytes are
buffered.  Bytes are naturals `< 256`; the `% 256` mirrors byte truncation. -/
def getInt32LE : List Nat → Option Int
  | b0 :: b1 :: b2 :: b3 :: _ =>
    let u : Nat := b0 % 256 + 256 * (b1 % 256) + 65536 * (b2 % 256) + 16777216 * (b3 % 256)
    some (if u < 2147483648 then (u : Int) else (u : Int) - 4294967296)
  | _ => none

/-- The outcome of one `data` event in `readWireProtocolMessages`'s loop body. -/
inductive FramerStep where
  | waiting (buffer : List Nat)
  | yielded (msg : List Nat) (buffer : List Nat)
  | fatal (sizeOfMessage : Int)
deriving DecidableEq, Repr

/-- One iteration of `readWireProtocolMessages`'s `for await` body
(lines 1205-1233): append the chunk to the buffer pool, read the declared
int32 length (keep waiting when fewer than 4 bytes are buffered), raise
`MongoParseError` when the declared length is negative or exceeds the maximum
message size, keep waiting while fewer than `sizeOfMessage` bytes are
buffered, and otherwise yield exactly `sizeOfMessage` bytes, removing them
from the pool. -/
def processChunk (buffer chunk : List Nat) (maxBsonMessageSize : Nat) : FramerStep :=
  let pool := buffer ++ chunk
  match getInt32LE pool with
  | none => .waiting pool
  | some sizeOfMessage =>
    if sizeOfMessage < 0 then .fatal sizeOfMessage
    else if (maxBsonMessageSize : Int) < sizeOfMessage then .fatal sizeOfMessage
    else if (pool.length : Int) < sizeOfMessage then .waiting pool
    else .yielded (pool.take sizeOfMessage.toNat) (pool.drop sizeOfMessage.toNat)

/-- The framer's accumulated run state: the buffer pool, the messages yielded
so far, and whether a `MongoParseError` has been raised (which terminates the
generator). -/
structure FramerRun where
  buffer : List Nat
  yields : List (List Nat)
  fatalError : Bool
deriving DecidableEq, Repr

/-- Fold one arriving chunk into the framer's run state. -/
def stepFramer (maxSize : Nat) (st : FramerRun) (chunk : List Nat) : FramerRun :=
  if st.fatalError then st
  else
    match processChunk st.buffer chunk maxSize with
    | .waiting b => { st with buffer := b }
    | .yielded m b => { st with buffer := b, yields := st.yields ++ [m] }
    | .fatal _ => { st with fatalError := true }

/-- Run `readWireProtocolMessages` over a whole sequence of socket `data`
chunks, starting from an empty buffer pool. -/
def runFramer (chunks : List (List Nat)) (maxSize : Nat) : FramerRun :=
  chunks.foldl (stepFramer maxSize) ⟨[], [], false⟩

/-! ## `ModernConnection` reply delivery (`sendCommand` 1093-1154,
`exhaustCommand` 1168-1183, `readMany` 1273-1285) -/

/-- A parsed inbound reply as consumed by `sendWire`. -/
structure Reply where
  moreToCome : Bool
  doc : Doc
deriving DecidableEq, Repr

/-- The error `sendCommand` (lines 1109-1118) throws for a reply document:
`writeConcernError` wins, then the generic server-error test
(`ok === 0 || $err || errmsg || code`). -/
def docError (d : Doc) : Option ErrKind :=
  if d.writeConcernError then some .writeConcern
  else if d.ok = some 0 || d.errDollar || d.errmsg || d.code then some .server
  else none

/-- The documents `sendCommand` yields from a finite inbound reply stream,
paired with the error it throws (if any).  `readMany` stops after the first
reply without `moreToCome`; `sendCommand` checks each document and throws on
an error document, otherwise yields it.  When the stream ends with every
reply still flagged `moreToCome`, everything is delivered and no error is
thrown here (the stream simply ends). -/
def sendCommandDocs : List Reply → List Doc × Option ErrKind
  | [] => ([], none)
  | r :: rest =>
    match docError r.doc with
    | some e => ([], some e)
    | none =>
      if r.moreToCome then
        let p := sendCommandDocs rest
        (r.doc :: p.1, p.2)
      else ([r.doc], none)

/-- Model of `ModernConnection.exhaustCommand` (lines 1168-1183): the `exhaustLoop`
passes each document yielded by `sendCommand` to the reply listener, and when
the generator ends it throws `MongoUnexpectedServerResponseError('Server
ended moreToCome unexpectedly')`; `exhaustLoop().catch(replyListener)` hands
that error — or the error `sendCommand` itself threw — to the listener.  The
result is the full sequence of `replyListener` invocations as
`(error?, reply?)` pairs. -/
def modernExhaustTrace (replies : List Reply) : List (Option ErrKind × Option Doc) :=
  let p := sendCommandDocs replies
  p.1.map (fun d => ((none : Option ErrKind), some d)) ++
    [(some (p.2.getD .unexpectedServerResponse), (none : Option Doc))]

/-- Because `Connection.exhaustCommand` (lines 558-565) merely delegates to
`Connection.command`, the streamed exchange is the ordinary dispatch: the
operation is inserted by `write`, each inbound reply is handled by
`onMessage` (re-inserting on `moreToCome`), and when the socket closes the
`close` handler runs `cleanup`.  This models that scenario: dispatch with
request id `requestId`, receive `replies`, then the socket closes. -/
def connectionExhaustScenario (s : ConnState) (requestId : Nat)
    (replies : List WireMessage) : ConnState × List Ev :=
  let r0 := write s requestId false none none
  let r1 := replies.foldl
    (fun (acc : ConnState × List Ev) m =>
      let r := onMessage acc.1 m
      (r.1, acc.2 ++ r.2)) r0
  let r2 := onClose r1.1
  (r2.1, r1.2 ++ r2.2)

/-! ## Helper lemmas -/

lemma cbCall_mem_invokeCb (op : OperationDescription) (err : Option ErrKind) :
    Ev.cbCall op.requestId err none ∈ invokeCb op err none := by
  unfold invokeCb
  cases op.monitored <;> simp

lemma monitorEvent_ne_close (err : Option ErrKind) (reply : Option Doc) :
    monitorEvent err reply ≠ Ev.close := by
  unfold monitorEvent
  split
  · simp
  · cases reply
    · simp
    · dsimp only
      split <;> simp

lemma close_not_mem_invokeCb (op : OperationDescription) (err : Option ErrKind)
    (reply : Option Doc) : Ev.close ∉ invokeCb op err reply := by
  unfold invokeCb
  cases op.monitored
  · simp
  · intro h
    simp only [if_pos, List.mem_cons, List.not_mem_nil, or_false] at h
    rcases h with h | h
    · exact monitorEvent_ne_close err reply h.symm
    · exact Ev.noConfusion h.symm

lemma exists_cbCall_mem_invokeCb (op : OperationDescription) (err : Option ErrKind)
    (reply : Option Doc) : ∃ e r, Ev.cbCall op.requestId e r ∈ invokeCb op err reply := by
  unfold invokeCb
  cases op.monitored
  · exact ⟨err, reply, by simp⟩
  · exact ⟨err, if isWCE err then none else reply, by simp⟩

/-- What `cleanup` does on a not-yet-closed connection. -/
lemma cleanup_open (s : ConnState) (force : Bool) (e : Option ErrKind)
    (h : s.closed = false) :
    cleanup s force e =
      ({ s with closed := true, queue := [] },
        (s.queue.map fun p => invokeCb p.2 e none).flatten ++ [Ev.close]) := by
  simp [cleanup, h]

lemma cleanup_closed (s : ConnState) (force : Bool) (e : Option ErrKind)
    (h : s.closed = true) : cleanup s force e = (s, []) := by
  simp [cleanup, h]

lemma cbCall_mem_cleanup_trace (q : List (Nat × OperationDescription)) (e : Option ErrKind) :
    ∀ p ∈ q, Ev.cbCall p.2.requestId e none ∈ (q.map fun p => invokeCb p.2 e none).flatten := by
  intro p hp
  exact List.mem_flatten.mpr
    ⟨invokeCb p.2 e none, List.mem_map_of_mem _ hp, cbCall_mem_invokeCb p.2 e⟩

lemma close_not_mem_cleanup_handlers (q : List (Nat × OperationDescription))
    (e : Option ErrKind) : Ev.close ∉ (q.map fun p => invokeCb p.2 e none).flatten := by
  intro hmem
  obtain ⟨l, hl, hcl⟩ := List.mem_flatten.mp hmem
  obtain ⟨p, _, rfl⟩ := List.mem_map.mp hl
  exact close_not_mem_invokeCb _ _ _ hcl

/-! ## C1 -/

/-- Claim C1. Once cleanup begins on a not-yet-closed connection (`destroy`,
socket error, socket close, timeout, and the invalid-pending-count branch all
funnel into `cleanup`), every operation in the pending map has its completion
handler invoked with the closing error, the pending map is emptied, and the
`close` event is emitted exactly once, after all the handler invocations
(the trace is exactly the handler calls followed by `close`, and `close`
occurs nowhere among the handler calls); and cleanup is idempotent: when the
`closed` flag is already set, a second invocation changes nothing and invokes
no handler. -/
theorem C1_cleanup_contract (s : ConnState) (force : Bool) (e : ErrKind) :
    (s.closed = false →
      cleanup s force (some e) =
        ({ s with closed := true, queue := [] },
          (s.queue.map fun p => invokeCb p.2 (some e) none).flatten ++ [Ev.close]) ∧
      (∀ p ∈ s.queue,
        Ev.cbCall p.2.requestId (some e) none ∈
          (s.queue.map fun p => invokeCb p.2 (some e) none).flatten) ∧
      Ev.close ∉ (s.queue.map fun p => invokeCb p.2 (some e) none).flatten) ∧
    (s.closed = true → cleanup s force (some e) = (s, [])) := by
  exact ⟨fun h => ⟨cleanup_open s force (some e) h,
      cbCall_mem_cleanup_trace s.queue (some e),
      close_not_mem_cleanup_handlers s.queue (some e)⟩,
    fun h => cleanup_closed s force (some e) h⟩

/-- A live connection with one pending operation, used to instantiate C1. -/
def c1OpenState : ConnState :=
  { closed := false
    queue := [(1, { requestId := 1, noResponse := false, monitored := false })]
    clusterTime := none
    isMonitoringConnection := false
    monitorCommands := false
    delayedTimeout := false
    socketTimeout := 0
    generation := 1
    socketTimeoutMSDefault := 0 }

/-- The same connection after cleanup, used to instantiate C1's idempotence. -/
def c1ClosedState : ConnState :=
  { c1OpenState with closed := true, queue := [] }

/-- Witness for C1 at a concrete connection: cleanup delivers the network
error to the one pending handler and then emits `close`; calling it again on
the closed state is a no-op. -/
theorem C1_cleanup_contract_witness :
    (cleanup c1OpenState true (some .network) =
      ({ c1OpenState with closed := true, queue := [] },
        (c1OpenState.queue.map fun p => invokeCb p.2 (some .network) none).flatten ++
          [Ev.close])) ∧
    cleanup c1ClosedState true (some .network) = (c1ClosedState, []) :=
  ⟨((C1_cleanup_contract c1OpenState true .network).1 rfl).1,
    (C1_cleanup_contract c1ClosedState true .network).2 rfl⟩

/-! ## Facts about `deliver` -/

lemma deliver_state (s : ConnState) (savedTimeout : Nat) (msg : WireMessage)
    (op : OperationDescription) :
    (deliver s savedTimeout msg op).1.queue =
      (if msg.moreToCome then qSet (qDelete s.queue msg.responseTo) msg.requestId op
        else qDelete s.queue msg.responseTo) ∧
    (deliver s savedTimeout msg op).1.closed = s.closed ∧
    (deliver s savedTimeout msg op).1.generation = s.generation := by
  rcases msg with ⟨rt, rid, mtc, pok, mdoc⟩
  cases mtc <;> cases pok <;> cases mdoc <;>
    simp [deliver] <;> split_ifs <;> simp

lemma mem_append_invokeCb (op : OperationDescription) (pre : List Ev) (err : Option ErrKind)
    (reply : Option Doc) :
    ∃ e r, Ev.cbCall op.requestId e r ∈ pre ++ invokeCb op err reply := by
  obtain ⟨e, r, hm⟩ := exists_cbCall_mem_invokeCb op err reply
  exact ⟨e, r, List.mem_append_right pre hm⟩

lemma deliver_cbCall (s : ConnState) (savedTimeout : Nat) (msg : WireMessage)
    (op : OperationDescription) :
    ∃ e r, Ev.cbCall op.requestId e r ∈ (deliver s savedTimeout msg op).2 := by
  rcases msg with ⟨rt, rid, mtc, pok, mdoc⟩
  cases pok
  · simpa [deliver] using exists_cbCall_mem_invokeCb op (some .parse) none
  · cases mdoc with
    | none => simpa [deliver] using exists_cbCall_mem_invokeCb op none none
    | some d =>
      simp only [deliver]
      by_cases hw : d.writeConcernError = true
      · simpa [hw] using
          mem_append_invokeCb op _ (some .writeConcern) (some d)
      · by_cases hs : (d.ok = some 0 || d.errDollar || d.errmsg || d.code) = true
        · simpa [hw, hs] using mem_append_invokeCb op _ (some .server) none
        · simpa [hw, hs] using mem_append_invokeCb op _ none (some d)

lemma close_not_mem_deliver (s : ConnState) (savedTimeout : Nat) (msg : WireMessage)
    (op : OperationDescription) :
    Ev.close ∉ (deliver s savedTimeout msg op).2 := by
  rcases msg with ⟨rt, rid, mtc, pok, mdoc⟩
  cases pok
  · simpa [deliver] using close_not_mem_invokeCb op (some .parse) none
  · cases mdoc with
    | none => simpa [deliver] using close_not_mem_invokeCb op none none
    | some d =>
      simp only [deliver]
      intro hmem
      by_cases hw : d.writeConcernError = true
      · simp only [hw, if_pos, if_true] at hmem
        rcases List.mem_append.mp (by simpa using hmem) with h | h
        · cases hct : d.clusterTime <;> simp [hct] at h
        · exact close_not_mem_invokeCb op (some .writeConcern) (some d) h
      · by_cases hs : (d.ok = some 0 || d.errDollar || d.errmsg || d.code) = true
        · simp only [hw, hs, if_false, if_true, Bool.false_eq_true] at hmem
          rcases List.mem_append.mp (by simpa using hmem) with h | h
          · cases hct : d.clusterTime <;> simp [hct] at h
          · exact close_not_mem_invokeCb op (some .server) none h
        · simp only [hw, hs, if_false, Bool.false_eq_true] at hmem
          rcases List.mem_append.mp (by simpa using hmem) with h | h
          · cases hct : d.clusterTime <;> simp [hct] at h
          · exact close_not_mem_invokeCb op none (some d) h

/-! ## C2 -/

/-- Claim C2. On a monitoring connection, a reply whose `responseTo` matches no
pending operation is handled by size of the pending map: an empty map drops
the reply (no handler fires, the map stays empty, nothing is closed); a
single pending entry is taken over — removed under its original key and
completed by this reply's dispatch (re-inserted under the reply's own request
id exactly when `moreToCome`), without closing the connection; two or more
entries tear the connection down with the fatal `INVALID_QUEUE_SIZE` runtime
error, every pending handler receiving that error before `close` fires. -/
theorem C2_monitoring_unmatched_reply (s : ConnState) (msg : WireMessage)
    (hmon : s.isMonitoringConnection = true)
    (hmiss : qLookup s.queue msg.responseTo = none) :
    (s.queue = [] →
      onMessage s msg =
        ({ s with delayedTimeout := false, socketTimeout := 0 }, [Ev.message])) ∧
    (∀ rid op, s.queue = [(rid, op)] →
      (∃ e r, Ev.cbCall op.requestId e r ∈ (onMessage s msg).2) ∧
      (onMessage s msg).1.queue =
        (if msg.moreToCome then [(msg.requestId, op)] else []) ∧
      (onMessage s msg).1.closed = s.closed ∧
      Ev.close ∉ (onMessage s msg).2) ∧
    (2 ≤ s.queue.length → s.closed = false →
      (onMessage s msg).1.closed = true ∧
      (onMessage s msg).1.queue = [] ∧
      (∀ p ∈ s.queue,
        Ev.cbCall p.2.requestId (some .invalidQueueSize) none ∈ (onMessage s msg).2) ∧
      Ev.close ∈ (onMessage s msg).2) := by
  refine ⟨?_, ?_, ?_⟩
  · intro hq
    simp [onMessage, hmon, hq, qLookup]
  · intro rid op hq
    have hne : rid ≠ msg.responseTo := by
      intro hcontra
      rw [hq, hcontra] at hmiss
      simp [qLookup] at hmiss
    have hred : onMessage s msg =
        (let r := deliver { s with delayedTimeout := false, socketTimeout := 0, queue := ([] : List (Nat × OperationDescription)) } s.socketTimeout msg op
         (r.1, Ev.message :: r.2)) := by
      simp [onMessage, hq, qLookup, hne, hmon, qDelete]
    rw [hred]
    dsimp only
    refine ⟨?_, ?_, ?_, ?_⟩
    · obtain ⟨e, r, hm⟩ := deliver_cbCall
        { s with delayedTimeout := false, socketTimeout := 0, queue := [] }
        s.socketTimeout msg op
      exact ⟨e, r, List.mem_cons_of_mem _ hm⟩
    · have := (deliver_state
        { s with delayedTimeout := false, socketTimeout := 0, queue := [] }
        s.socketTimeout msg op).1
      simpa [qDelete, qSet] using this
    · exact (deliver_state _ _ msg op).2.1
    · intro hmem
      rcases List.mem_cons.mp hmem with h | h
      · exact Ev.noConfusion h
      · exact close_not_mem_deliver _ _ msg op h
  · intro hlen hopen
    have h1 : 1 < s.queue.length := by omega
    have hred : onMessage s msg =
        (let s1 := { s with delayedTimeout := false, socketTimeout := 0 }
         let r := cleanup s1 true (some .invalidQueueSize)
         (r.1, Ev.message :: r.2)) := by
      simp [onMessage, hmiss, hmon, h1]
    rw [hred]
    dsimp only
    rw [cleanup_open _ true (some .invalidQueueSize) (by simpa using hopen)]
    refine ⟨rfl, rfl, ?_, ?_⟩
    · intro p hp
      exact List.mem_cons_of_mem _
        (List.mem_append_left _ (cbCall_mem_cleanup_trace s.queue (some .invalidQueueSize) p hp))
    · exact List.mem_cons_of_mem _ (List.mem_append_right _ (List.mem_singleton.mpr rfl))

/-- A monitoring connection with one pending heartbeat, and an unmatched
reply for it, used to instantiate C2. -/
def c2SingleState : ConnState :=
  { closed := false
    queue := [(10, { requestId := 10, noResponse := false, monitored := false })]
    clusterTime := none
    isMonitoringConnection := true
    monitorCommands := false
    delayedTimeout := false
    socketTimeout := 0
    generation := 0
    socketTimeoutMSDefault := 0 }

/-- The same monitoring connection with two pending operations. -/
def c2DoubleState : ConnState :=
  { c2SingleState with
      queue := [(10, { requestId := 10, noResponse := false, monitored := false }),
        (11, { requestId := 11, noResponse := false, monitored := false })] }

/-- A streaming reply whose `responseTo` (99) matches no pending entry. -/
def c2Msg : WireMessage :=
  { responseTo := 99, requestId := 42, moreToCome := true, parseOk := true
    doc := some { ok := some 1 } }

/-- Witness for C2 at concrete connections: with one pending entry the
orphan's handler fires and the entry is re-keyed under the reply's request
id; with two pending entries the connection closes and both handlers receive
the invalid-pending-count error. -/
theorem C2_monitoring_unmatched_reply_witness :
    ((∃ e r, Ev.cbCall 10 e r ∈ (onMessage c2SingleState c2Msg).2) ∧
      (onMessage c2SingleState c2Msg).1.queue =
        [(42, { requestId := 10, noResponse := false, monitored := false })] ∧
      (onMessage c2SingleState c2Msg).1.closed = false) ∧
    ((onMessage c2DoubleState c2Msg).1.closed = true ∧
      (∀ p ∈ c2DoubleState.queue,
        Ev.cbCall p.2.requestId (some .invalidQueueSize) none ∈
          (onMessage c2DoubleState c2Msg).2) ∧
      Ev.close ∈ (onMessage c2DoubleState c2Msg).2) := by
  have h1 := (C2_monitoring_unmatched_reply c2SingleState c2Msg (by decide)
      (by decide)).2.1 10 { requestId := 10, noResponse := false, monitored := false }
      (by decide)
  have h2 := (C2_monitoring_unmatched_reply c2DoubleState c2Msg (by decide)
      (by decide)).2.2 (by decide) (by decide)
  exact ⟨⟨h1.1, by rw [h1.2.1]; decide, h1.2.2.1⟩, h2.1, h2.2.2.1, h2.2.2.2⟩

/-! ## C3 -/

/-- A plain live connection with an empty pending map, monitoring off. -/
def c3State : ConnState :=
  { closed := false
    queue := []
    clusterTime := none
    isMonitoringConnection := false
    monitorCommands := false
    delayedTimeout := false
    socketTimeout := 0
    generation := 0
    socketTimeoutMSDefault := 0 }

/-- Counterexample to claim C3. The claim's last clause is false on the code:
dispatching with `noResponse = true` while `messageStream.writeCommand`
throws (here a network failure) still fires the completion handler with a
success result — the `catch` in `write` only returns early for
response-expecting operations, so control falls through to the unconditional
`if (operationDescription.noResponse) operationDescription.cb()`.  The trace
is exactly one callback invocation with no error and no document. -/
theorem C3_noResponse_counterexample :
    (write c3State 5 true none (some .network)).2 = [Ev.cbCall 5 none none] ∧
    Ev.cbCall 5 none none ≠ Ev.cbCall 5 (some .network) none := by decide

/-- Claim C3, amended. For every command dispatched with `noResponse = true`,
no entry is ever inserted into the pending-operation map (the map after
`write` is the map before it, and `write`'s `noResponse` branches never touch
it), and the completion handler fires synchronously with no document after
the write attempt — including when the write throws, in which case the
thrown error is swallowed and the handler still fires with a success
result. -/
theorem C3_noResponse_amended (s : ConnState) (requestId : Nat)
    (optSocketTimeoutMS : Option Nat) (writeError : Option ErrKind) :
    (write s requestId true optSocketTimeoutMS writeError).1.queue = s.queue ∧
    (write s requestId true optSocketTimeoutMS writeError).2 =
      (if s.monitorCommands then [Ev.commandStarted] else []) ++
        invokeCb { requestId := requestId, noResponse := true, monitored := s.monitorCommands }
          none none ∧
    Ev.cbCall requestId none none ∈ (write s requestId true optSocketTimeoutMS writeError).2 := by
  have hm := cbCall_mem_invokeCb
    { requestId := requestId, noResponse := true, monitored := s.monitorCommands }
    (none : Option ErrKind)
  have hq : (write s requestId true optSocketTimeoutMS writeError).1.queue = s.queue := by
    cases writeError <;> cases optSocketTimeoutMS <;> simp [write] <;> split_ifs <;> simp
  have ht : (write s requestId true optSocketTimeoutMS writeError).2 =
      (if s.monitorCommands then [Ev.commandStarted] else []) ++
        invokeCb { requestId := requestId, noResponse := true, monitored := s.monitorCommands }
          none none := by
    cases writeError <;> cases optSocketTimeoutMS <;> simp [write] <;> split_ifs <;> simp
  exact ⟨hq, ht, ht ▸ List.mem_append_right _ hm⟩

/-! ## C5 -/

/-- Counterexample to claim C5. When only the session has a known cluster time
(connection's is `null`), the source's guard `session.clusterTime &&
clusterTime && ...greaterThan(...)` is false, so nothing is attached — but
the claim (and spec step 4.4.4) demands the session's time be attached
whenever at least one of the two is known. -/
theorem C5_clusterTime_counterexample :
    commandClusterTime none true (some { clusterTime := some 3, explicit := false }) =
      .ok none ∧
    specGossipClusterTime none (some 3) = some 3 ∧
    (none : Option Nat) ≠ some 3 := ⟨rfl, rfl, by decide⟩

/-- Claim C5, amended. For every command assembled with a session attached on
a session-supporting connection, the `$clusterTime` stamped onto the command
is the connection's known cluster time, upgraded to the session's exactly
when both are known and the session's is greater (i.e. the max of the two);
when the connection's cluster time is unknown, nothing is attached — even
when the session's is known. -/
theorem C5_clusterTime_amended (connClusterTime : Option Nat) (ss : Session) :
    commandClusterTime connClusterTime true (some ss) =
      .ok (match connClusterTime, ss.clusterTime with
        | some c, some sct => some (max c sct)
        | _, _ => connClusterTime) := by
  cases connClusterTime with
  | none => cases ss.clusterTime <;> simp [commandClusterTime]
  | some c =>
    cases hct : ss.clusterTime with
    | none => simp [commandClusterTime, hct]
    | some sct =>
      simp only [commandClusterTime, hct, Option.isSome_some, Bool.and_true,
        if_true, Except.ok.injEq]
      rcases Nat.lt_or_ge c sct with h | h
      · simp [h, Nat.max_eq_right (Nat.le_of_lt h)]
      · simp [Nat.not_lt.mpr h, Nat.max_eq_left h]

/-! ## C9 -/

/-- A connection constructed with `options.generation = 1`. -/
def c9State : ConnState :=
  { closed := false
    queue := []
    clusterTime := none
    isMonitoringConnection := false
    monitorCommands := false
    delayedTimeout := false
    socketTimeout := 0
    generation := 1
    socketTimeoutMSDefault := 0 }

/-- Counterexample to claim C9. The generation is not immutable: the class exposes
`set generation` (lines 295-297), and invoking it changes the value observed
through the accessor — a connection constructed with generation 1 reports 2
after `conn.generation = 2`. -/
theorem C9_generation_counterexample :
    generationGet (generationSet c9State 2) = 2 ∧ generationGet c9State = 1 ∧
    (2 : Int) ≠ 1 := by decide

lemma cleanup_generation (s : ConnState) (force : Bool) (e : Option ErrKind) :
    (cleanup s force e).1.generation = s.generation := by
  by_cases h : s.closed = true
  · rw [cleanup_closed s force e h]
  · rw [cleanup_open s force e (by simpa using h)]

lemma onMessage_generation (s : ConnState) (msg : WireMessage) :
    (onMessage s msg).1.generation = s.generation := by
  simp only [onMessage]
  cases hl : qLookup s.queue msg.responseTo with
  | some op => exact (deliver_state _ _ msg op).2.2
  | none =>
    by_cases hmon : s.isMonitoringConnection = true
    · simp only [hmon, if_true]
      by_cases hlen : 1 < s.queue.length
      · simp only [hlen, if_true]
        exact cleanup_generation _ true (some .invalidQueueSize)
      · simp only [hlen, if_false]
        cases hq : s.queue with
        | nil => rfl
        | cons hd tl => exact (deliver_state _ _ msg hd.2).2.2
    · simp [hmon]

lemma write_generation (s : ConnState) (requestId : Nat) (noResponse : Bool)
    (optT : Option Nat) (we : Option ErrKind) :
    (write s requestId noResponse optT we).1.generation = s.generation := by
  cases we <;> cases optT <;> simp [write] <;> split_ifs <;> simp

/-- Claim C9, amended. The generation is mutable, but only through the
dedicated `generation` setter: every engine operation (`onMessage`, `write`,
`cleanup`, `destroy`) preserves the generation observed through the accessor,
while the setter overwrites it (the accessor returning the new value, with
`|| 0` collapsing a stored 0 to 0). -/
theorem C9_generation_amended (s : ConnState) (msg : WireMessage) (requestId : Nat)
    (noResponse : Bool) (optT : Option Nat) (we : Option ErrKind) (force : Bool)
    (e : Option ErrKind) (g : Int) :
    (onMessage s msg).1.generation = s.generation ∧
    (write s requestId noResponse optT we).1.generation = s.generation ∧
    (cleanup s force e).1.generation = s.generation ∧
    (destroy s force).1.generation = s.generation ∧
    generationGet (generationSet s g) = (if g = 0 then 0 else g) := by
  refine ⟨onMessage_generation s msg, write_generation s requestId noResponse optT we,
    cleanup_generation s force e, ?_, by simp [generationGet, generationSet]⟩
  by_cases h : s.closed = true
  · simp [destroy, h]
  · simp only [destroy]
    rw [if_neg (by simpa using h)]
    exact cleanup_generation s force (some .network)

/-! ## C6 and C10 -/

/-- The trace `onMessage` produces for a matched reply whose first document
carries `writeConcernError`: the `message` emit, the cluster-time emit when
the document carries one, then the callback invocation with the
write-concern error. -/
lemma onMessage_matched_wce_trace (s : ConnState) (msg : WireMessage)
    (op : OperationDescription) (d : Doc)
    (hfound : qLookup s.queue msg.responseTo = some op)
    (hparse : msg.parseOk = true) (hdoc : msg.doc = some d)
    (hwce : d.writeConcernError = true) :
    (onMessage s msg).2 =
      Ev.message ::
        ((match d.clusterTime with
          | some t => [Ev.clusterTimeReceived t]
          | none => []) ++ invokeCb op (some .writeConcern) (some d)) := by
  simp [onMessage, hfound, deliver, hparse, hdoc, hwce]

/-- Claim C6. For every matched reply whose first document carries a
`writeConcernError` (with the reply's `ok` field 1 and no `$err`, as such
replies have), the waiting caller's callback is invoked with the
write-concern error kind — every callback invocation in the trace carries it,
so neither the plain success path nor the generic server-error path fires —
and when command monitoring is enabled the wrapper emits `commandSucceeded`,
never `commandFailed`, because `reply.ok === 1`. -/
theorem C6_writeConcernError_dispatch (s : ConnState) (msg : WireMessage)
    (op : OperationDescription) (d : Doc)
    (hfound : qLookup s.queue msg.responseTo = some op)
    (hparse : msg.parseOk = true) (hdoc : msg.doc = some d)
    (hwce : d.writeConcernError = true) (hok : d.ok = some 1)
    (herr : d.errDollar = false) :
    (∀ e r, Ev.cbCall op.requestId e r ∈ (onMessage s msg).2 → e = some .writeConcern) ∧
    (∃ r, Ev.cbCall op.requestId (some .writeConcern) r ∈ (onMessage s msg).2) ∧
    (op.monitored = true →
      Ev.commandSucceeded ∈ (onMessage s msg).2 ∧
      Ev.commandFailed ∉ (onMessage s msg).2) := by
  have htr := onMessage_matched_wce_trace s msg op d hfound hparse hdoc hwce
  have hmev : monitorEvent (some .writeConcern) (some d) = Ev.commandSucceeded := by
    simp [monitorEvent, replyOkOne, hok, herr]
  refine ⟨?_, ?_, ?_⟩
  · intro e r hmem
    rw [htr] at hmem
    rcases List.mem_cons.mp hmem with h | h
    · exact absurd h (by simp)
    · rcases List.mem_append.mp h with h | h
      · cases hct : d.clusterTime <;> simp [hct] at h
      · cases hm : op.monitored <;> simp [invokeCb, hm, hmev] at h
        · exact h.1
        · exact h.1
  · rw [htr]
    cases hm : op.monitored
    · exact ⟨some d, by simp [invokeCb, hm]⟩
    · exact ⟨none, by simp [invokeCb, hm, isWCE]⟩
  · intro hm
    rw [htr]
    constructor
    · simp [invokeCb, hm, hmev]
    · intro hmem
      rcases List.mem_cons.mp hmem with h | h
      · exact Ev.noConfusion h
      · rcases List.mem_append.mp h with h | h
        · cases hct : d.clusterTime <;> simp [hct] at h
        · simp [invokeCb, hm, hmev] at h

/-- A live connection holding pending operation 21, monitoring off. -/
def c6StatePlain : ConnState :=
  { closed := false
    queue := [(21, { requestId := 21, noResponse := false, monitored := false })]
    clusterTime := none
    isMonitoringConnection := false
    monitorCommands := false
    delayedTimeout := false
    socketTimeout := 0
    generation := 0
    socketTimeoutMSDefault := 0 }

/-- The same connection but with the pending operation dispatched while
command monitoring was enabled. -/
def c6StateMonitored : ConnState :=
  { c6StatePlain with
      monitorCommands := true
      queue := [(21, { requestId := 21, noResponse := false, monitored := true })] }

/-- A reply to request 21 whose document carries `writeConcernError` with
`ok: 1`. -/
def c6Msg : WireMessage :=
  { responseTo := 21, requestId := 43, moreToCome := false, parseOk := true
    doc := some { ok := some 1, writeConcernError := true } }

/-- Witness for C6 at a concrete exchange: the monitored connection delivers
the write-concern error and emits `commandSucceeded`, never
`commandFailed`. -/
theorem C6_writeConcernError_dispatch_witness :
    (∃ r, Ev.cbCall 21 (some .writeConcern) r ∈ (onMessage c6StateMonitored c6Msg).2) ∧
    Ev.commandSucceeded ∈ (onMessage c6StateMonitored c6Msg).2 ∧
    Ev.commandFailed ∉ (onMessage c6StateMonitored c6Msg).2 := by
  have h := C6_writeConcernError_dispatch c6StateMonitored c6Msg
    { requestId := 21, noResponse := false, monitored := true }
    { ok := some 1, writeConcernError := true }
    (by decide) (by decide) (by decide) (by decide) (by decide) (by decide)
  exact ⟨h.2.1, (h.2.2 rfl).1, (h.2.2 rfl).2⟩

/-- Claim C10. For a matched reply carrying `writeConcernError`, the payload
the caller's callback receives depends on the monitoring flag: with
monitoring off, `onMessage` calls the callback directly with the error and
the full reply document; with monitoring on, the wrapper passes the error but
replaces the reply with `undefined` (so retryability is not tricked into
seeing a success). -/
theorem C10_monitoring_changes_wce_payload (s : ConnState) (msg : WireMessage)
    (op : OperationDescription) (d : Doc)
    (hfound : qLookup s.queue msg.responseTo = some op)
    (hparse : msg.parseOk = true) (hdoc : msg.doc = some d)
    (hwce : d.writeConcernError = true) :
    (op.monitored = false →
      Ev.cbCall op.requestId (some .writeConcern) (some d) ∈ (onMessage s msg).2) ∧
    (op.monitored = true →
      Ev.cbCall op.requestId (some .writeConcern) none ∈ (onMessage s msg).2) := by
  have htr := onMessage_matched_wce_trace s msg op d hfound hparse hdoc hwce
  rw [htr]
  constructor
  · intro hm
    simp [invokeCb, hm]
  · intro hm
    simp [invokeCb, hm, isWCE]

/-- Witness for C10: the same write-concern-error exchange delivered on the
unmonitored connection hands the callback the document, on the monitored one
it hands `undefined`. -/
theorem C10_monitoring_changes_wce_payload_witness :
    Ev.cbCall 21 (some .writeConcern) (some { ok := some 1, writeConcernError := true }) ∈
      (onMessage c6StatePlain c6Msg).2 ∧
    Ev.cbCall 21 (some .writeConcern) none ∈ (onMessage c6StateMonitored c6Msg).2 := by
  have h1 := (C10_monitoring_changes_wce_payload c6StatePlain c6Msg
    { requestId := 21, noResponse := false, monitored := false }
    { ok := some 1, writeConcernError := true }
    (by decide) (by decide) (by decide) (by decide)).1 rfl
  have h2 := (C10_monitoring_changes_wce_payload c6StateMonitored c6Msg
    { requestId := 21, noResponse := false, monitored := true }
    { ok := some 1, writeConcernError := true }
    (by decide) (by decide) (by decide) (by decide)).2 rfl
  exact ⟨h1, h2⟩

/-! ## C4 -/

lemma sendCommandDocs_clean (replies : List Reply)
    (h : ∀ r ∈ replies, r.moreToCome = true ∧ docError r.doc = none) :
    sendCommandDocs replies = (replies.map Reply.doc, none) := by
  induction replies with
  | nil => rfl
  | cons r rest ih =>
    obtain ⟨hm, hd⟩ := h r (List.mem_cons_self r rest)
    simp [sendCommandDocs, hd, hm, ih (fun x hx => h x (List.mem_cons_of_mem r hx))]

/-- A live connection with an empty pending map, used for the exhaust
scenario on the callback-style `Connection`. -/
def c4State : ConnState :=
  { closed := false
    queue := []
    clusterTime := none
    isMonitoringConnection := false
    monitorCommands := false
    delayedTimeout := false
    socketTimeout := 0
    generation := 0
    socketTimeoutMSDefault := 0 }

/-- Counterexample to claim C4. The two implementations are not observably
identical when the reply stream ends without the server signalling "no
more": with no replies at all, `ModernConnection.exhaustCommand` hands its
listener the unexpected-server-response error ('Server ended moreToCome
unexpectedly'), while `Connection.exhaustCommand` — which merely delegates to
`command` — leaves the pending operation to be resolved by `cleanup` when the
socket closes, so its listener receives a *network* error, and no
unexpected-server-response error ever reaches it. -/
theorem C4_exhaust_counterexample :
    modernExhaustTrace [] = [(some ErrKind.unexpectedServerResponse, none)] ∧
    (connectionExhaustScenario c4State 7 []).2 =
      [Ev.cbCall 7 (some ErrKind.network) none, Ev.close] ∧
    ErrKind.network ≠ ErrKind.unexpectedServerResponse := by decide

/-- Claim C4, amended. When the reply stream ends without the server having
signalled that no more replies are coming, only `ModernConnection.
exhaustCommand` delivers the unexpected-server-response error to the reply
listener (after delivering every streamed reply); `Connection.exhaustCommand`
delegates to `command`, and the ended stream surfaces to the pending caller
as a network error through connection cleanup on socket close.  The two
implementations therefore differ observably for this case. -/
theorem C4_exhaust_amended (replies : List Reply) (s : ConnState) (requestId : Nat)
    (hclean : ∀ r ∈ replies, r.moreToCome = true ∧ docError r.doc = none)
    (hopen : s.closed = false) (hq : s.queue = []) (hmc : s.monitorCommands = false)
    (hto : s.socketTimeoutMSDefault = 0) :
    modernExhaustTrace replies =
      replies.map (fun r => ((none : Option ErrKind), some r.doc)) ++
        [(some ErrKind.unexpectedServerResponse, none)] ∧
    (connectionExhaustScenario s requestId []).2 =
      [Ev.cbCall requestId (some ErrKind.network) none, Ev.close] ∧
    (some ErrKind.network : Option ErrKind) ≠ some ErrKind.unexpectedServerResponse := by
  refine ⟨?_, ?_, by decide⟩
  · simp [modernExhaustTrace, sendCommandDocs_clean replies hclean]
  · have hwrite : write s requestId false none none =
        ({ s with queue := [(requestId, { requestId := requestId, noResponse := false, monitored := false })] }, []) := by
      simp [write, hq, hmc, hto, qSet]
    simp only [connectionExhaustScenario, List.foldl_nil, hwrite]
    rw [onClose, cleanup_open _ true (some .network) (by simpa using hopen)]
    simp [invokeCb]

/-- A clean streamed heartbeat reply still flagged `moreToCome`. -/
def c4Reply : Reply := { moreToCome := true, doc := { ok := some 1 } }

/-- Witness for the amended C4 at one streamed reply: the modern
implementation delivers the reply and then the unexpected-server-response
error; the callback implementation's caller receives the network error from
cleanup. -/
theorem C4_exhaust_amended_witness :
    modernExhaustTrace [c4Reply] =
      [((none : Option ErrKind), some c4Reply.doc),
        (some ErrKind.unexpectedServerResponse, none)] ∧
    (connectionExhaustScenario c4State 7 []).2 =
      [Ev.cbCall 7 (some ErrKind.network) none, Ev.close] := by
  have h := C4_exhaust_amended [c4Reply] c4State 7
    (by
      intro r hr
      rcases List.mem_singleton.mp hr with rfl
      exact ⟨rfl, rfl⟩)
    rfl rfl rfl rfl
  exact ⟨by rw [h.1]; rfl, h.2.1⟩

/-! ## C7 -/

/-- Claim C7. Whenever the chunk that just arrived makes the 4-byte length
prefix available (whatever amount of payload has or has not arrived with it),
a declared length that is negative or exceeds the maximum message size — the
handshake-declared `maxBsonMessageSize`, or the 64 MiB default when unknown —
makes the framer raise the fatal parse error at once, before the message
payload is buffered in full or parsed; and the default bound is indeed
64 MiB. -/
theorem C7_invalid_length_fatal (buffer chunk : List Nat) (helloMax : Option Nat) (L : Int)
    (hdec : getInt32LE (buffer ++ chunk) = some L)
    (hbad : L < 0 ∨ (resolveMaxMessageSize helloMax : Int) < L) :
    processChunk buffer chunk (resolveMaxMessageSize helloMax) = .fatal L ∧
    resolveMaxMessageSize none = 64 * 1024 * 1024 := by
  refine ⟨?_, by decide⟩
  unfold processChunk
  dsimp only
  rw [hdec]
  by_cases h0 : L < 0
  · simp [h0]
  · rcases hbad with h | h
    · exact absurd h h0
    · simp [h0, h]

/-- Witness for C7: the four bytes `ff ff ff ff` declare length `-1`, and the
framer fails fatally on the very chunk that completes the length prefix,
with no payload buffered at all. -/
theorem C7_invalid_length_fatal_witness :
    processChunk [] [255, 255, 255, 255] (resolveMaxMessageSize none) = .fatal (-1) ∧
    resolveMaxMessageSize none = 64 * 1024 * 1024 :=
  C7_invalid_length_fatal [] [255, 255, 255, 255] none (-1) (by decide) (Or.inl (by decide))

/-! ## C8 -/

lemma getInt32LE_none_of_short (xs : List Nat) (h : xs.length < 4) : getInt32LE xs = none := by
  match xs, h with
  | [], _ => rfl
  | [_], _ => rfl
  | [_, _], _ => rfl
  | [_, _, _], _ => rfl
  | _ :: _ :: _ :: _ :: _, h => simp only [List.length_cons] at h; omega

lemma getInt32LE_some_length {xs : List Nat} {v : Int} (h : getInt32LE xs = some v) :
    4 ≤ xs.length := by
  by_contra hlt
  push_neg at hlt
  rw [getInt32LE_none_of_short xs hlt] at h
  exact Option.noConfusion h

lemma getInt32LE_take (xs : List Nat) (k : Nat) (h4 : 4 ≤ k) :
    getInt32LE (xs.take k) = getInt32LE xs := by
  rcases xs with _ | ⟨a, _ | ⟨b, _ | ⟨c, _ | ⟨d, t⟩⟩⟩⟩
  · simp
  · rw [List.take_of_length_le (by simp; omega)]
  · rw [List.take_of_length_le (by simp; omega)]
  · rw [List.take_of_length_le (by simp; omega)]
  · obtain ⟨m, rfl⟩ : ∃ m, k = 4 + m := ⟨k - 4, by omega⟩
    rw [List.take_add]
    rfl

/-- Once the framer has yielded the message and holds an empty buffer, the
remaining (necessarily empty) chunks leave it unchanged. -/
lemma framer_after_yield (msg : List Nat) (maxSize : Nat) :
    ∀ chunks : List (List Nat), chunks.flatten = [] →
      List.foldl (stepFramer maxSize) ⟨[], [msg], false⟩ chunks = ⟨[], [msg], false⟩ := by
  intro chunks
  induction chunks with
  | nil => intro _; rfl
  | cons c rest ih =>
    intro h
    rw [List.flatten_cons] at h
    obtain ⟨hc, hr⟩ := List.append_eq_nil.mp h
    subst hc
    rw [List.foldl_cons]
    have hstep : stepFramer maxSize ⟨[], [msg], false⟩ [] = ⟨[], [msg], false⟩ := rfl
    rw [hstep]
    exact ih hr

/-- The accumulation invariant: while `k < L` bytes of the message have
arrived, the framer holds exactly those `k` bytes, has yielded nothing, and
processing the remaining chunks (which carry the rest of the message) ends
with the one message yielded and an empty buffer. -/
lemma framer_accum (msg : List Nat) (L maxSize : Nat)
    (hlen : msg.length = L) (hdec : getInt32LE msg = some (L : Int)) (hmax : L ≤ maxSize) :
    ∀ (chunks : List (List Nat)) (k : Nat), k < L → chunks.flatten = msg.drop k →
      List.foldl (stepFramer maxSize) ⟨msg.take k, [], false⟩ chunks = ⟨[], [msg], false⟩ := by
  have h4 : 4 ≤ L := hlen ▸ getInt32LE_some_length hdec
  intro chunks
  induction chunks with
  | nil =>
    intro k hk hjoin
    exfalso
    have hz : (msg.drop k).length = 0 := by rw [← hjoin]; rfl
    rw [List.length_drop, hlen] at hz
    omega
  | cons c rest ih =>
    intro k hk hjoin
    rw [List.flatten_cons] at hjoin
    have hcpre : msg.take k ++ c = msg.take (k + c.length) := by
      rw [List.take_add]
      congr 1
      have hcc := congrArg (List.take c.length) hjoin
      rwa [List.take_left] at hcc
    have hrest : rest.flatten = msg.drop (k + c.length) := by
      have hdd := congrArg (List.drop c.length) hjoin
      rw [List.drop_left] at hdd
      rw [hdd, List.drop_drop, Nat.add_comm]
    have hbound : k + c.length ≤ L := by
      have hl := congrArg List.length hjoin
      rw [List.length_append, List.length_drop, hlen] at hl
      omega
    rw [List.foldl_cons]
    by_cases hlt : k + c.length < L
    · have hstep : stepFramer maxSize ⟨msg.take k, [], false⟩ c =
          ⟨msg.take (k + c.length), [], false⟩ := by
        simp only [stepFramer, processChunk, Bool.false_eq_true, if_false]
        rw [hcpre]
        by_cases h4k : k + c.length < 4
        · rw [getInt32LE_none_of_short _ (by rw [List.length_take, hlen]; omega)]
        · push_neg at h4k
          rw [getInt32LE_take msg _ h4k, hdec]
          dsimp only
          rw [if_neg (Int.not_lt.mpr (Int.natCast_nonneg L)),
            if_neg (Int.not_lt.mpr (by exact_mod_cast hmax)),
            if_pos (show ((List.take (k + c.length) msg).length : Int) < (L : Int) by
              rw [List.length_take, hlen, Nat.min_eq_left hbound]; exact_mod_cast hlt)]
      rw [hstep]
      exact ih (k + c.length) hlt hrest
    · have hkL : k + c.length = L := by omega
      have hstep : stepFramer maxSize ⟨msg.take k, [], false⟩ c = ⟨[], [msg], false⟩ := by
        simp only [stepFramer, processChunk, Bool.false_eq_true, if_false]
        rw [hcpre, hkL]
        rw [getInt32LE_take msg L h4, hdec]
        dsimp only
        rw [if_neg (Int.not_lt.mpr (Int.natCast_nonneg L)),
          if_neg (Int.not_lt.mpr (by exact_mod_cast hmax)),
          if_neg (show ¬ ((List.take L msg).length : Int) < (L : Int) by
            rw [List.length_take, hlen, Nat.min_self]; exact Int.lt_irrefl _)]
        rw [Int.toNat_natCast, ← hlen, List.take_length, List.take_length, List.drop_length]
        simp
      rw [hstep]
      apply framer_after_yield
      rw [hrest, hkL, ← hlen, List.drop_length]

/-- Claim C8. For every well-formed message — a byte sequence of exactly `L`
bytes whose leading int32 declares `L`, with `L` within the maximum message
size — and *every* partition of those bytes into arriving chunks, the framer
yields exactly that one message once all `L` bytes have arrived, removes its
bytes from the buffer (ending empty), and raises no error; since the result
is the same constant for every partition, one-byte chunks and a single chunk
are equivalent. -/
theorem C8_framer_chunk_invariance (msg : List Nat) (L : Nat) (chunks : List (List Nat))
    (maxSize : Nat) (hlen : msg.length = L) (hdec : getInt32LE msg = some (L : Int))
    (hmax : L ≤ maxSize) (hjoin : chunks.flatten = msg) :
    runFramer chunks maxSize = ⟨[], [msg], false⟩ := by
  have h4 : 4 ≤ L := hlen ▸ getInt32LE_some_length hdec
  have h0 : runFramer chunks maxSize =
      List.foldl (stepFramer maxSize) ⟨msg.take 0, [], false⟩ chunks := rfl
  rw [h0]
  exact framer_accum msg L maxSize hlen hdec hmax chunks 0 (by omega) (by simpa using hjoin)

/-- Witness for C8 at a concrete message of declared length 6, split into
uneven chunks: the framer yields exactly the message and ends with an empty
buffer and no error. -/
theorem C8_framer_chunk_invariance_witness :
    runFramer [[6], [0, 0], [0], [9, 8]] 100 = ⟨[], [[6, 0, 0, 0, 9, 8]], false⟩ :=
  C8_framer_chunk_invariance [6, 0, 0, 0, 9, 8] 6 [[6], [0, 0], [0], [9, 8]] 100
    rfl (by decide) (by decide) (by decide)
